import Mathlib

/-! Verification of `contrib/autorandr_launcher/autorandr_launcher.c` from the
autorandr repository: a small X11 event-loop daemon that listens for RandR
screen-change notifications and launches `/usr/bin/autorandr` after a
debounced change event.

The C program is embedded shallowly:
* `handle_screen_change` is the body of the `if (evt->response_type & ...)`
  branch of the `while (1)` loop in `main` (the debounce filter);
* `handle_event` is one full iteration of the loop on a received event;
* `run_events` / `run_notifications` iterate over a finite event stream
  (the stream ending corresponds to `xcb_wait_for_event` returning NULL);
* `ar_launch` models the fork/execve/waitpid launcher;
* `daemon_call` / `daemonize_step` model the daemonization step;
* `main_model` models the control flow of `main` after option parsing.

`xcb_timestamp_t` is a 32-bit unsigned server timestamp; it is only ever
compared and stored, never subject to arithmetic, so it is embedded as `Nat`.
`time_t` values from `time(NULL)` are embedded as `Int`; the code adds `1`
to one and compares, which `Int` reproduces exactly.
-/

namespace AutorandrLauncher

/-- Constant `XCB_RANDR_NOTIFY_MASK_SCREEN_CHANGE` from `xcb/randr.h`
(value 1). -/
def XCB_RANDR_NOTIFY_MASK_SCREEN_CHANGE : Nat := 1

/-- An `xcb_generic_event_t` as used by the program: its `response_type`
byte, together with the `timestamp` field that is read after the cast to
`xcb_randr_screen_change_notify_event_t` (only meaningful when the event
really is a screen-change notification). -/
structure GenericEvent where
  response_type : Nat
  timestamp : Nat
  deriving Repr, DecidableEq

/-- The mutable loop state of `main`: `last_timestamp` (an
`xcb_timestamp_t`, initialized to 0) and `last_time` (a `time_t`,
initialized to `time(NULL)` at startup). -/
structure DebounceState where
  last_timestamp : Nat
  last_time : Int
  deriving Repr, DecidableEq

/-- Observable actions performed by one loop iteration, in program order:
the `ar_launch()` call and the two assignments that follow it. -/
inductive Action where
  | launch : Action
  | set_last_time : Int → Action
  | set_last_timestamp : Nat → Action
  deriving Repr, DecidableEq

/-- Number of `ar_launch()` calls in a list of actions. -/
def count_launches (l : List Action) : Nat :=
  l.count Action.launch

/-- The screen-change branch of the event loop:

```c
time_t evt_time = time(NULL);
if ((randr_evt->timestamp > last_timestamp) && (evt_time > last_time + 1)) {
        ar_launch();
        last_time = evt_time;
        last_timestamp = randr_evt->timestamp;
}
```

Returns the actions performed (in program order) and the updated state. -/
def handle_screen_change (st : DebounceState) (timestamp : Nat)
    (evt_time : Int) : List Action × DebounceState :=
  if timestamp > st.last_timestamp ∧ evt_time > st.last_time + 1 then
    ([Action.launch, Action.set_last_time evt_time,
      Action.set_last_timestamp timestamp],
     { last_timestamp := timestamp, last_time := evt_time })
  else
    ([], st)

/-- One full iteration of the `while (1)` loop on a received (non-NULL)
event: the event is handed to the debounce logic exactly when
`evt->response_type & XCB_RANDR_NOTIFY_MASK_SCREEN_CHANGE` is non-zero;
otherwise the event is freed with no other effect. -/
def handle_event (st : DebounceState) (evt : GenericEvent)
    (evt_time : Int) : List Action × DebounceState :=
  if (evt.response_type &&& XCB_RANDR_NOTIFY_MASK_SCREEN_CHANGE) ≠ 0 then
    handle_screen_change st evt.timestamp evt_time
  else
    ([], st)

/-- The event loop run over a finite stream of events paired with the
wall-clock time `time(NULL)` observed when each is handled; the stream
ending corresponds to `xcb_wait_for_event` returning NULL. -/
def run_events (st : DebounceState) :
    List (GenericEvent × Int) → List Action × DebounceState
  | [] => ([], st)
  | (evt, t) :: rest =>
    let r := handle_event st evt t
    let r2 := run_events r.2 rest
    (r.1 ++ r2.1, r2.2)

/-- The event loop run over a stream consisting only of screen-change
notifications, given as (server timestamp, arrival wall-clock time) pairs. -/
def run_notifications (st : DebounceState) :
    List (Nat × Int) → List Action × DebounceState
  | [] => ([], st)
  | (ts, t) :: rest =>
    let r := handle_screen_change st ts t
    let r2 := run_notifications r.2 rest
    (r.1 ++ r2.1, r2.2)

/-- The child side of `ar_launch`:

```c
static char *argv[] =
    { "/usr/bin/autorandr", "--change", "--default", "default", NULL };
execve(argv[0], argv, environ);
exit(127);
```

The command spawned by `execve`: the fixed argument vector and the parent's
environment `environ`, passed through unchanged. -/
structure SpawnedCommand where
  argv : List String
  env : List (String × String)
  deriving Repr, DecidableEq

/-- The argument vector of the `execve` call in `ar_launch` (NULL
terminator dropped). -/
def ar_launch_argv : List String :=
  ["/usr/bin/autorandr", "--change", "--default", "default"]

/-- What the child process of `ar_launch` execs: the fixed command line
with the parent's environment. -/
def ar_launch_spawn (environ : List (String × String)) : SpawnedCommand :=
  { argv := ar_launch_argv, env := environ }

/-- Exit status of the child: if `execve` starts the executable the child
becomes the tool and exits with the tool's status (`exec_outcome = some s`);
if `execve` fails and returns, control falls through to `exit(127)`
(`exec_outcome = none`). -/
def ar_launch_child_status (exec_outcome : Option Nat) : Nat :=
  match exec_outcome with
  | some s => s
  | none => 127

/-- Function `ar_launch`: fork, the child execs the fixed command, the parent
`waitpid`s for the child (modelled by the child's exit status being part of
the synchronous result) and then returns 0 unconditionally. Result:
(spawned command, child exit status, parent return value). -/
def ar_launch (environ : List (String × String))
    (exec_outcome : Option Nat) : SpawnedCommand × Nat × Int :=
  (ar_launch_spawn environ, ar_launch_child_status exec_outcome, 0)

/-- The parts of the process environment that `daemon(3)` affects. -/
structure ProcessState where
  cwd : String
  stdio_null : Bool
  deriving Repr, DecidableEq

/-- Library call `daemon(nochdir, noclose)`, as documented in
daemon(3): if `nochdir` is zero, it changes the calling process's current
working directory to the root directory `/`; if `noclose` is zero, it
redirects standard input, standard output and standard error to
`/dev/null`. -/
def daemon_call (nochdir noclose : Nat) (p : ProcessState) : ProcessState :=
  { cwd := if nochdir = 0 then "/" else p.cwd,
    stdio_null := if noclose = 0 then true else p.stdio_null }

/-- The daemonization step of `main`:

```c
if (daemonize == 1 && VERBOSE != 1) {
        ... install signal handlers ...
        daemon(0, 0);
}
```

Flags are the C `int`s set by `getopt_long` (0 or 1). Returns the process
state after the step and whether `daemon` was called. -/
def daemonize_step (daemonize VERBOSE : Nat) (p : ProcessState) :
    ProcessState × Bool :=
  if daemonize = 1 ∧ VERBOSE ≠ 1 then (daemon_call 0 0 p, true)
  else (p, false)

/-- Observable outcome of a run of `main` after option parsing:
the value passed to `exit` (or the implicit 0 when `main` falls off its
end after the loop breaks on a NULL event), whether `xcb_connect` was
reached, whether `daemon` was called, how many events were received from
the notification channel, and the actions of the event loop. -/
structure MainOutcome where
  exit_code : Int
  connection_attempted : Bool
  daemon_called : Bool
  events_processed : Nat
  actions : List Action
  deriving Repr, DecidableEq

/-- The control flow of `main` after `getopt_long`: the `help`/`version`
early exits, the daemonization step, `xcb_connect` with its error check
(`conn_error` is the value `xcb_connection_has_error` returns, 0 on
success), then the event loop starting from
`last_timestamp = 0, last_time = time(NULL) = start_time` over the finite
stream `events`; when the stream ends (`xcb_wait_for_event` returned NULL)
the loop breaks and `main` falls off its end, yielding exit status 0. -/
def main_model (help version daemonize VERBOSE : Nat) (conn_error : Int)
    (start_time : Int) (events : List (GenericEvent × Int)) : MainOutcome :=
  if help = 1 then
    { exit_code := 0, connection_attempted := false, daemon_called := false,
      events_processed := 0, actions := [] }
  else if version = 1 then
    { exit_code := 0, connection_attempted := false, daemon_called := false,
      events_processed := 0, actions := [] }
  else
    let dc := decide (daemonize = 1 ∧ VERBOSE ≠ 1)
    if conn_error ≠ 0 then
      { exit_code := conn_error, connection_attempted := true,
        daemon_called := dc, events_processed := 0, actions := [] }
    else
      let r := run_events { last_timestamp := 0, last_time := start_time }
        events
      { exit_code := 0, connection_attempted := true, daemon_called := dc,
        events_processed := events.length, actions := r.1 }

/-- Discipline on a notification stream under which every notification
passes the debounce filter: each notification's server timestamp exceeds
the `last_timestamp` current when it arrives, and its arrival time exceeds
the current `last_time` by more than one second — i.e. consecutive
notifications are spaced more than one second apart, the first one
relative to the initial state. -/
def WellSpaced : DebounceState → List (Nat × Int) → Prop
  | _, [] => True
  | st, (ts, t) :: rest =>
    ts > st.last_timestamp ∧ t > st.last_time + 1 ∧
      WellSpaced { last_timestamp := ts, last_time := t } rest

/-! Helper lemmas about the event loop. -/

theorem handle_screen_change_pos (st : DebounceState) (ts : Nat) (t : Int)
    (h : ts > st.last_timestamp ∧ t > st.last_time + 1) :
    handle_screen_change st ts t =
      ([Action.launch, Action.set_last_time t, Action.set_last_timestamp ts],
       { last_timestamp := ts, last_time := t }) := by
  simp [handle_screen_change, h]

theorem handle_screen_change_neg (st : DebounceState) (ts : Nat) (t : Int)
    (h : ¬(ts > st.last_timestamp ∧ t > st.last_time + 1)) :
    handle_screen_change st ts t = ([], st) := by
  simp [handle_screen_change, h]

theorem count_launches_append (a b : List Action) :
    count_launches (a ++ b) = count_launches a + count_launches b := by
  simp [count_launches, List.count_append]

/-- If every notification of the stream arrives no later than one second
after the state's `last_time`, the whole stream is suppressed and the
state is unchanged. -/
theorem run_notifications_quiet (st : DebounceState) (l : List (Nat × Int))
    (h : ∀ p ∈ l, p.2 ≤ st.last_time + 1) :
    run_notifications st l = ([], st) := by
  induction l with
  | nil => rfl
  | cons p rest ih =>
    obtain ⟨ts, t⟩ := p
    have ht : t ≤ st.last_time + 1 := h (ts, t) (List.mem_cons_self _ _)
    have hneg : ¬(ts > st.last_timestamp ∧ t > st.last_time + 1) := by
      rintro ⟨-, h2⟩
      exact absurd ht (not_le.mpr h2)
    simp only [run_notifications, handle_screen_change_neg st ts t hneg]
    rw [ih (fun q hq => h q (List.mem_cons_of_mem _ hq))]
    rfl

/-! Claim theorems. -/

/-- C1: for a change notification with server timestamp `T` handled at
wall-clock time `now`, `ar_launch` is invoked if and only if
`T > last_timestamp` and `now > last_time + 1`; on a trigger the actions,
in program order, are the invocation first and the two state updates
afterwards, leaving the state at `last_timestamp = T, last_time = now`;
on a non-trigger nothing happens and the state is unchanged. -/
theorem debounce_trigger_iff (st : DebounceState) (T : Nat) (now : Int) :
    (Action.launch ∈ (handle_screen_change st T now).1 ↔
      T > st.last_timestamp ∧ now > st.last_time + 1) ∧
    (T > st.last_timestamp ∧ now > st.last_time + 1 →
      handle_screen_change st T now =
        ([Action.launch, Action.set_last_time now,
          Action.set_last_timestamp T],
         { last_timestamp := T, last_time := now })) ∧
    (¬(T > st.last_timestamp ∧ now > st.last_time + 1) →
      handle_screen_change st T now = ([], st)) := by
  refine ⟨?_, handle_screen_change_pos st T now,
    handle_screen_change_neg st T now⟩
  by_cases h : T > st.last_timestamp ∧ now > st.last_time + 1
  · rw [handle_screen_change_pos st T now h]
    simp [h]
  · rw [handle_screen_change_neg st T now h]
    simp [h]

theorem debounce_trigger_iff_witness :
    handle_screen_change { last_timestamp := 0, last_time := 0 } 100 5 =
      ([Action.launch, Action.set_last_time 5,
        Action.set_last_timestamp 100],
       { last_timestamp := 100, last_time := 5 }) :=
  (debounce_trigger_iff { last_timestamp := 0, last_time := 0 } 100 5).2.1
    (by decide)

/-- C2 counterexample: from the initial state
(`last_timestamp = 0`, process start time 98) the notifications
`(timestamp 100, time 100)` and `(timestamp 150, time 101)` have strictly
increasing server timestamps and arrival times spaced exactly 1 second
apart (so "at least 1 second apart" holds), yet only 1 invocation occurs,
not 2: the second notification fails `101 > 100 + 1`. -/
theorem spaced_one_second_counterexample :
    (100 : Nat) < 150 ∧ (100 : Int) + 1 ≤ 101 ∧
    count_launches (run_notifications
      { last_timestamp := 0, last_time := 98 } [(100, 100), (150, 101)]).1
      = 1 := by decide

/-- C2 (amended): for every sequence of notifications with strictly
increasing server timestamps (each above the `last_timestamp` current when
it arrives) whose arrival times are spaced MORE than one second apart —
each arrival time exceeding the previous trigger's wall-clock time plus
one, the first relative to the initial state — the number of `ar_launch`
invocations equals the number of notifications. -/
theorem spaced_sequence_all_trigger (st : DebounceState)
    (l : List (Nat × Int)) (h : WellSpaced st l) :
    count_launches (run_notifications st l).1 = l.length := by
  induction l generalizing st with
  | nil => rfl
  | cons p rest ih =>
    obtain ⟨ts, t⟩ := p
    obtain ⟨h1, h2, h3⟩ := h
    have hc := ih { last_timestamp := ts, last_time := t } h3
    simp only [run_notifications, handle_screen_change_pos st ts t ⟨h1, h2⟩,
      count_launches_append, hc, List.length_cons]
    simp [count_launches]
    omega

theorem spaced_sequence_all_trigger_witness :
    count_launches (run_notifications
      { last_timestamp := 0, last_time := 0 } [(100, 5), (150, 10)]).1 = 2 :=
  spaced_sequence_all_trigger { last_timestamp := 0, last_time := 0 }
    [(100, 5), (150, 10)] ⟨by decide, by decide, by decide, by decide, trivial⟩

/-- C3: a burst of `N > 1` notifications with strictly increasing server
timestamps, all arriving at the same wall-clock second `t`, whose first
member passes the trigger test against the prior state, causes exactly one
invocation, and the final state records the FIRST notification's timestamp
and arrival time; the later, higher-timestamped members are all
suppressed. -/
theorem burst_single_invocation (st : DebounceState) (ts1 : Nat) (t : Int)
    (rest : List (Nat × Int))
    (_hne : rest ≠ [])
    (hts : ts1 > st.last_timestamp)
    (ht : t > st.last_time + 1)
    (hsame : ∀ p ∈ rest, p.2 = t)
    (_hinc : ((ts1, t) :: rest).Pairwise (fun a b => a.1 < b.1)) :
    count_launches (run_notifications st ((ts1, t) :: rest)).1 = 1 ∧
    (run_notifications st ((ts1, t) :: rest)).2 =
      { last_timestamp := ts1, last_time := t } := by
  have hquiet : run_notifications { last_timestamp := ts1, last_time := t }
      rest = ([], { last_timestamp := ts1, last_time := t }) :=
    run_notifications_quiet _ rest
      (fun p hp => by rw [hsame p hp]; exact le_of_lt (lt_add_one t))
  simp only [run_notifications, handle_screen_change_pos st ts1 t ⟨hts, ht⟩,
    hquiet]
  constructor
  · rfl
  · trivial

theorem burst_single_invocation_witness :
    count_launches (run_notifications
      { last_timestamp := 0, last_time := 0 } [(100, 5), (150, 5)]).1 = 1 ∧
    (run_notifications { last_timestamp := 0, last_time := 0 }
      [(100, 5), (150, 5)]).2 = { last_timestamp := 100, last_time := 5 } :=
  burst_single_invocation { last_timestamp := 0, last_time := 0 } 100 5
    [(150, 5)] (by decide) (by decide) (by decide) (by decide) (by decide)

/-- C4: an event is handed to the debounce filter (and can contribute a
launch) only when its `response_type` has the screen-change mask bit set;
an event without that bit is discarded with no invocation and no state
change, and when the bit is set the iteration behaves exactly as the
debounce filter on the event's timestamp. -/
theorem non_change_event_discarded (st : DebounceState) (evt : GenericEvent)
    (t : Int) :
    ((evt.response_type &&& XCB_RANDR_NOTIFY_MASK_SCREEN_CHANGE) = 0 →
      handle_event st evt t = ([], st)) ∧
    (Action.launch ∈ (handle_event st evt t).1 →
      (evt.response_type &&& XCB_RANDR_NOTIFY_MASK_SCREEN_CHANGE) ≠ 0) ∧
    ((evt.response_type &&& XCB_RANDR_NOTIFY_MASK_SCREEN_CHANGE) ≠ 0 →
      handle_event st evt t = handle_screen_change st evt.timestamp t) := by
  refine ⟨fun h => ?_, fun h => ?_, fun h => ?_⟩
  · simp [handle_event, h]
  · intro hz
    have he : handle_event st evt t = ([], st) := by simp [handle_event, hz]
    rw [he] at h
    simp at h
  · simp [handle_event, h]

theorem non_change_event_discarded_witness :
    handle_event { last_timestamp := 0, last_time := 0 }
      { response_type := 2, timestamp := 100 } 50 =
      ([], { last_timestamp := 0, last_time := 0 }) :=
  (non_change_event_discarded { last_timestamp := 0, last_time := 0 }
    { response_type := 2, timestamp := 100 } 50).1 (by decide)

/-- C5: `last_timestamp` is monotonically non-decreasing — no single loop
iteration, and hence no run of the event loop, ever stores a smaller value
than the one it replaces. -/
theorem last_timestamp_monotone :
    (∀ (st : DebounceState) (evt : GenericEvent) (t : Int),
      st.last_timestamp ≤ (handle_event st evt t).2.last_timestamp) ∧
    (∀ (st : DebounceState) (l : List (GenericEvent × Int)),
      st.last_timestamp ≤ (run_events st l).2.last_timestamp) := by
  have hstep : ∀ (st : DebounceState) (evt : GenericEvent) (t : Int),
      st.last_timestamp ≤ (handle_event st evt t).2.last_timestamp := by
    intro st evt t
    unfold handle_event handle_screen_change
    split
    · split
      · next h => exact le_of_lt h.1
      · exact le_refl _
    · exact le_refl _
  refine ⟨hstep, fun st l => ?_⟩
  induction l generalizing st with
  | nil => exact le_refl _
  | cons p rest ih =>
    obtain ⟨evt, t⟩ := p
    exact le_trans (hstep st evt t) (ih (handle_event st evt t).2)

/-- C6: a notification whose timestamp is at most `last_timestamp` — in
particular a replay of an already-handled timestamp — causes no invocation
regardless of its arrival time, and leaves both components of the debounce
state unchanged. -/
theorem stale_timestamp_no_trigger (st : DebounceState) (ts : Nat) (t : Int)
    (h : ts ≤ st.last_timestamp) :
    handle_screen_change st ts t = ([], st) :=
  handle_screen_change_neg st ts t (fun hc => absurd h (not_le.mpr hc.1))

theorem stale_timestamp_no_trigger_witness :
    handle_screen_change { last_timestamp := 100, last_time := 0 } 50 1000 =
      ([], { last_timestamp := 100, last_time := 0 }) :=
  stale_timestamp_no_trigger { last_timestamp := 100, last_time := 0 } 50
    1000 (by decide)

/-- C7: a notification carrying server timestamp 0 never triggers: the
sentinel is the literal value 0, `last_timestamp` (an unsigned timestamp,
here `Nat`) is always at least 0, and the trigger demands a strictly
greater timestamp, so at every state — including the initial one — a zero
timestamp is suppressed with no invocation and no state change. -/
theorem zero_timestamp_never_triggers (st : DebounceState) (t : Int) :
    handle_screen_change st 0 t = ([], st) :=
  handle_screen_change_neg st 0 t (fun hc => Nat.not_lt_zero _ hc.1)

/-- C8: exit semantics of `main`: help or version requested gives exit
code 0 with no connection attempted and no invocations; a failed
display-server connection (`conn_error ≠ 0`) gives exit code equal to the
server-reported error code, with zero events processed and zero
invocations; and when the connection succeeds and the notification channel
closes (the event stream ends), `main` falls through and exits 0. -/
theorem main_exit_codes (help version daemonize VERBOSE : Nat)
    (conn_error : Int) (start_time : Int)
    (events : List (GenericEvent × Int)) :
    (help = 1 →
      main_model help version daemonize VERBOSE conn_error start_time events
        = { exit_code := 0, connection_attempted := false,
            daemon_called := false, events_processed := 0, actions := [] }) ∧
    (help ≠ 1 → version = 1 →
      main_model help version daemonize VERBOSE conn_error start_time events
        = { exit_code := 0, connection_attempted := false,
            daemon_called := false, events_processed := 0, actions := [] }) ∧
    (help ≠ 1 → version ≠ 1 → conn_error ≠ 0 →
      (main_model help version daemonize VERBOSE conn_error start_time
          events).exit_code = conn_error ∧
      (main_model help version daemonize VERBOSE conn_error start_time
          events).events_processed = 0 ∧
      count_launches (main_model help version daemonize VERBOSE conn_error
          start_time events).actions = 0) ∧
    (help ≠ 1 → version ≠ 1 → conn_error = 0 →
      (main_model help version daemonize VERBOSE conn_error start_time
          events).exit_code = 0) := by
  refine ⟨fun h => ?_, fun h hv => ?_, fun h hv hc => ?_, fun h hv hc => ?_⟩
  · simp [main_model, h]
  · simp [main_model, h, hv]
  · simp [main_model, h, hv, hc, count_launches]
  · simp [main_model, h, hv, hc]

theorem main_exit_codes_witness :
    (main_model 0 0 0 0 3 500 []).exit_code = 3 ∧
    (main_model 0 0 0 0 3 500 []).events_processed = 0 ∧
    count_launches (main_model 0 0 0 0 3 500 []).actions = 0 :=
  (main_exit_codes 0 0 0 0 3 500 []).2.2.1 (by decide) (by decide)
    (by decide)

/-- C9: every invocation of the external tool execs exactly
`/usr/bin/autorandr --change --default default` with the parent's full
environment; when the executable cannot be started the child exits with
the distinct non-zero status 127; and the parent's return value is 0
whatever the child's exit status is, so the child's status never alters
the parent's control flow. -/
theorem ar_launch_contract (environ : List (String × String))
    (exec_outcome : Option Nat) :
    (ar_launch environ exec_outcome).1 =
      { argv := ["/usr/bin/autorandr", "--change", "--default", "default"],
        env := environ } ∧
    (exec_outcome = none →
      (ar_launch environ exec_outcome).2.1 = 127 ∧
      (ar_launch environ exec_outcome).2.1 ≠ 0) ∧
    (ar_launch environ exec_outcome).2.2 = 0 := by
  refine ⟨rfl, fun h => ?_, rfl⟩
  subst h
  exact ⟨rfl, by simp [ar_launch, ar_launch_child_status]⟩

theorem ar_launch_contract_witness :
    (ar_launch [("HOME", "/root")] none).2.1 = 127 :=
  ((ar_launch_contract [("HOME", "/root")] none).2.1 rfl).1

/-- C10 counterexample: with `daemonize = 1` and `VERBOSE = 0`, starting
from working directory `/home/user`, daemonization does occur but the
working directory is NOT left unchanged: `daemon(0, 0)` changes it to
`/`, refuting the claim's "no change to the current working directory". -/
theorem daemonize_keeps_cwd_counterexample :
    (daemonize_step 1 0 { cwd := "/home/user", stdio_null := false }).2
      = true ∧
    (daemonize_step 1 0 { cwd := "/home/user", stdio_null := false }).1.cwd
      = "/" ∧
    "/" ≠ "/home/user" := by decide

/-- C10 (amended): daemonization occurs if and only if the daemonize flag
is set and the verbose flag is not; when both are set it is skipped and
the process state is untouched; and when daemonization occurs the working
directory is changed to the root directory `/` (not left unchanged) and
standard I/O is redirected to a null sink. -/
theorem daemonize_iff_and_effect (daemonize VERBOSE : Nat)
    (p : ProcessState) :
    ((daemonize_step daemonize VERBOSE p).2 = true ↔
      (daemonize = 1 ∧ VERBOSE ≠ 1)) ∧
    (daemonize = 1 ∧ VERBOSE ≠ 1 →
      (daemonize_step daemonize VERBOSE p).1 =
        { cwd := "/", stdio_null := true }) ∧
    (¬(daemonize = 1 ∧ VERBOSE ≠ 1) →
      daemonize_step daemonize VERBOSE p = (p, false)) := by
  refine ⟨?_, fun h => ?_, fun h => ?_⟩
  · by_cases h : daemonize = 1 ∧ VERBOSE ≠ 1 <;> simp [daemonize_step, h]
  · simp [daemonize_step, h, daemon_call]
  · simp [daemonize_step, h]

theorem daemonize_iff_and_effect_witness :
    daemonize_step 1 1 { cwd := "/home/user", stdio_null := false } =
      ({ cwd := "/home/user", stdio_null := false }, false) :=
  (daemonize_iff_and_effect 1 1
    { cwd := "/home/user", stdio_null := false }).2.2 (by decide)

end AutorandrLauncher
